import Mathlib

/-!
Verification development for the scope-action utilities
(`exit_action`, `fail_action`, `success_action`, `unique_resource`,
`make_unique_resource_checked` in namespace `wwa::utils`).

The embedding is a shallow one:

* A callable (exit function / deleter) is identified by a natural number;
  invoking a deleter on a handle is recorded as a `Call` event, and invoking
  a guard's nullary exit function is recorded by a count of invocations.
* Handle values are natural numbers (value semantics: storing a handle
  stores its value).
* A C++ exception is modelled with `Except` (for constructors, where a throw
  means no object exists) or with an explicit `Bool` "an exception
  propagated" component (for member functions, where the object survives).
* `std::uncaught_exceptions()` is an ambient `Int` passed explicitly to the
  operations that read it; the C++ `int` bounds `INT_MIN`/`INT_MAX` are
  modelled explicitly since `release()` uses `std::numeric_limits`.
* A compile-time fact such as "initialization of the stored member from the
  argument can throw, and does throw in this run" is abstracted into a
  `Bool` parameter of the modelled operation.
-/

namespace WwaUtils

/-- Model of `std::numeric_limits<int>::max()` (the C++ `int` is 32-bit on
every platform this library targets). -/
def INT_MAX : Int := 2 ^ 31 - 1

/-- Model of `std::numeric_limits<int>::min()`. -/
def INT_MIN : Int := -(2 ^ 31)

/-- A recorded invocation of a deleter: which deleter was called, and with
which handle value as its argument. -/
structure Call where
  del : Nat
  arg : Nat
deriving DecidableEq, Repr

/-! ### Scope guards (`scope_action.h`) -/

/-- State of `wwa::utils::exit_action` (scope_action.h:87-212): the stored
exit function is tracked by invocation counting only, so the state is the
`m_is_armed` flag. -/
structure exit_action where
  m_is_armed : Bool
deriving DecidableEq, Repr

/-- State of `wwa::utils::fail_action` (scope_action.h:245-379): the
`m_uncaught_exceptions_count` snapshot (a C++ `int`). -/
structure fail_action where
  m_uncaught_exceptions_count : Int
deriving DecidableEq, Repr

/-- State of `wwa::utils::success_action` (scope_action.h:416-550): the
`m_uncaught_exceptions_count` snapshot (a C++ `int`). -/
structure success_action where
  m_uncaught_exceptions_count : Int
deriving DecidableEq, Repr

/-- `exit_action::exit_action(Func&& fn)` (scope_action.h:107-123).
The general overload is a function-try-block: it initializes
`m_exit_function` from `fn`; on an exception it runs `catch (...) { fn(); }`
and the exception is implicitly rethrown (a constructor's function-try-block
always rethrows), so no object exists.  `initThrows` abstracts "the
initialization of the stored exit function throws in this run".
The result carries the number of invocations of `fn` made by the
constructor: `Except.error n` means the exception propagated after `n`
invocations, `Except.ok g` means the guard `g` was constructed (the
successful path never invokes `fn`). -/
def exit_action_ctor (initThrows : Bool) : Except Nat exit_action :=
  if initThrows then Except.error 1 else Except.ok ⟨true⟩

/-- `fail_action::fail_action(Func&& fn)` (scope_action.h:268-284): same
function-try-block shape as `exit_action`; additionally snapshots
`std::uncaught_exceptions()` (`uncaught`) into
`m_uncaught_exceptions_count`. -/
def fail_action_ctor (initThrows : Bool) (uncaught : Int) :
    Except Nat fail_action :=
  if initThrows then Except.error 1 else Except.ok ⟨uncaught⟩

/-- `success_action::success_action(Func&& fn)` (scope_action.h:441-453).
Unlike the other two guards, this constructor is NOT a function-try-block:
there is no `catch (...) { fn(); }`, so when initialization of
`m_exit_function` throws the exception propagates without invoking `fn`
(zero invocations). -/
def success_action_ctor (initThrows : Bool) (uncaught : Int) :
    Except Nat success_action :=
  if initThrows then Except.error 0 else Except.ok ⟨uncaught⟩

/-- `exit_action::~exit_action()` (scope_action.h:192-197): invokes the exit
function iff `m_is_armed`.  Returns the number of invocations. -/
def exit_action_dtor (g : exit_action) : Nat :=
  if g.m_is_armed then 1 else 0

/-- `fail_action::~fail_action()` (scope_action.h:358-363): invokes the exit
function iff `std::uncaught_exceptions() > m_uncaught_exceptions_count`,
where `uncaught` is the current count at destruction time.  Returns the
number of invocations. -/
def fail_action_dtor (g : fail_action) (uncaught : Int) : Nat :=
  if uncaught > g.m_uncaught_exceptions_count then 1 else 0

/-- `success_action::~success_action()` (scope_action.h:530-535): invokes
the exit function iff
`std::uncaught_exceptions() <= m_uncaught_exceptions_count`. -/
def success_action_dtor (g : success_action) (uncaught : Int) : Nat :=
  if uncaught ≤ g.m_uncaught_exceptions_count then 1 else 0

/-- `exit_action::release()` (scope_action.h:207): `m_is_armed = false`. -/
def exit_action_release (g : exit_action) : exit_action :=
  { g with m_is_armed := false }

/-- `fail_action::release()` (scope_action.h:374):
`m_uncaught_exceptions_count = std::numeric_limits<int>::max()`. -/
def fail_action_release (_ : fail_action) : fail_action :=
  ⟨INT_MAX⟩

/-- `success_action::release()` (scope_action.h:545):
`m_uncaught_exceptions_count = std::numeric_limits<int>::min()`. -/
def success_action_release (_ : success_action) : success_action :=
  ⟨INT_MIN⟩

/-- `exit_action::exit_action(exit_action&& other)` (scope_action.h:164-177):
initializes `m_exit_function` from `other`'s, copies `m_is_armed` from
`other`, then calls `other.release()`.  Returns
(new guard, source after the move). -/
def exit_action_move (other : exit_action) : exit_action × exit_action :=
  (⟨other.m_is_armed⟩, exit_action_release other)

/-- `fail_action::fail_action(fail_action&& other)` (scope_action.h:326-339):
copies `m_uncaught_exceptions_count` verbatim from `other` (it does not read
`std::uncaught_exceptions()` afresh, hence no current-count parameter), then
calls `other.release()`. -/
def fail_action_move (other : fail_action) : fail_action × fail_action :=
  (⟨other.m_uncaught_exceptions_count⟩, fail_action_release other)

/-- `success_action::success_action(success_action&& other)`
(scope_action.h:495-508): copies the snapshot verbatim, then
`other.release()`. -/
def success_action_move (other : success_action) :
    success_action × success_action :=
  (⟨other.m_uncaught_exceptions_count⟩, success_action_release other)

/-! ### `unique_resource` (unique_resource.h) -/

/-- State of `wwa::utils::unique_resource`: the stored handle value
(`m_resource`, through `guard<Resource>`), the identity of the stored
deleter (`m_deleter`, through `guard<Deleter>`), and the ownership flag
`m_run_on_reset`. -/
structure unique_resource where
  m_resource : Nat
  m_deleter : Nat
  m_run_on_reset : Bool
deriving DecidableEq, Repr

/-- `unique_resource::reset()`:
`if (m_run_on_reset) { m_run_on_reset = false; m_deleter.get()(m_resource.get()); }`.
Returns the state after the call together with the list of deleter
invocations it performed. -/
def reset (s : unique_resource) : unique_resource × List Call :=
  if s.m_run_on_reset then
    ({ s with m_run_on_reset := false }, [⟨s.m_deleter, s.m_resource⟩])
  else
    (s, [])

/-- `unique_resource::reset()` when the deleter itself may throw
(`delThrows`).  The source clears `m_run_on_reset` BEFORE invoking the
deleter, so the post-state is the same whether or not the deleter throws;
the third component records whether an exception propagated out. -/
def resetThrowingDeleter (s : unique_resource) (delThrows : Bool) :
    unique_resource × List Call × Bool :=
  if s.m_run_on_reset then
    ({ s with m_run_on_reset := false }, [⟨s.m_deleter, s.m_resource⟩],
      delThrows)
  else
    (s, [], false)

/-- `unique_resource::release()`: `m_run_on_reset = false`. -/
def release (s : unique_resource) : unique_resource :=
  { s with m_run_on_reset := false }

/-- `unique_resource::~unique_resource()`: `this->reset()`.  Returns the
deleter invocations the destructor performs. -/
def dtor (s : unique_resource) : List Call :=
  (reset s).2

/-- `unique_resource::reset(Res&& r)`:
`this->reset();` then assigns `r` into `m_resource.get()` (by forward or by
`std::as_const(r)` depending on `is_nothrow_assignable`), then
`m_run_on_reset = true`.  `assignThrows` abstracts "the copy assignment of
`r` into the stored slot throws in this run".  NOTE: the source body
contains no try/catch: when the assignment throws, the exception simply
propagates (third component `true`); no deleter is invoked on `r`, the
stored slot keeps its old value, and `m_run_on_reset` stays `false` (it was
cleared by the leading `reset()`). -/
def reset_with (s : unique_resource) (r : Nat) (assignThrows : Bool) :
    unique_resource × List Call × Bool :=
  let s1 := (reset s).1
  let c1 := (reset s).2
  if assignThrows then
    (s1, c1, true)
  else
    ({ s1 with m_resource := r, m_run_on_reset := true }, c1, false)

/-- `unique_resource::unique_resource(Res&& r, Del&& d)`:
member-init list
`m_resource(fwd(r), make_scope_guard<guarded_resource_t, Res>(d, r)),
 m_deleter(fwd(d), make_scope_guard<Deleter, Del>(d, m_resource.get())),
 m_run_on_reset(true)`.
`make_scope_guard<T, U>(d, x)` returns a `dummy_scope_guard` when `T` is
nothrow-constructible from `U` and otherwise `fail_action{[&d, &x] { d(x); }}`;
the `guard` constructor `guard(U&& r, ScopeGuard&& g)` constructs the member
first and calls `g.release()` only afterwards, so when the member
construction throws, the `fail_action` temporary fires `d(x)` exactly once
while the exception unwinds.

`resInitThrows` / `delInitThrows` abstract "constructing the stored
handle / deleter from the argument throws in this run" (this Bool is
necessarily `false` on the nothrow `dummy_scope_guard` path).  A throw from
the handle construction fires `d` on the caller's raw `r`; a throw from the
deleter construction fires `d` on the already-stored handle
`m_resource.get()`, whose value equals `r`.  On `Except.error calls` the
exception propagated after exactly the invocations `calls` and no object
exists; on success no deleter invocation happens and the object owns the
resource. -/
def unique_resource_ctor (r d : Nat) (resInitThrows delInitThrows : Bool) :
    Except (List Call) unique_resource :=
  if resInitThrows then
    Except.error [⟨d, r⟩]
  else
    let stored := r
    if delInitThrows then
      Except.error [⟨d, stored⟩]
    else
      Except.ok ⟨stored, d, true⟩

/-- `unique_resource::operator=(unique_resource&& rhs)` with `this ≠ &rhs`,
on the path where no assignment throws (the four `if constexpr` branches
order the two member assignments differently but produce the same values):
`this->reset();` then member-wise assignment from `rhs`, then
`m_run_on_reset = std::exchange(rhs.m_run_on_reset, false)`.
Returns (destination after, source after, deleter invocations). -/
def move_assign (a b : unique_resource) :
    unique_resource × unique_resource × List Call :=
  let a1 := (reset a).1
  let calls := (reset a).2
  let a2 := { a1 with m_resource := b.m_resource, m_deleter := b.m_deleter,
                      m_run_on_reset := b.m_run_on_reset }
  (a2, { b with m_run_on_reset := false }, calls)

/-- `unique_resource::operator=(unique_resource&& rhs)` executed with
`&rhs == this` (there is no self-assignment check in the source):
`this->reset()` fires the deleter if owning and clears `m_run_on_reset`;
the member self-assignments leave the stored values unchanged; finally
`m_run_on_reset = std::exchange(m_run_on_reset, false)` reads the
already-cleared flag, so the object ends non-owning. -/
def move_assign_self (s : unique_resource) : unique_resource × List Call :=
  let s1 := (reset s).1
  let calls := (reset s).2
  ({ s1 with m_run_on_reset := false }, calls)

/-- `make_unique_resource_checked(r, invalid, d)`:
`if (r == invalid) return {r, d, {}};` — the private
`unique_resource(Res&&, Del&&, dummy_scope_guard)` constructor, which stores
`r` and `d` and leaves `m_run_on_reset` at its default-member-initializer
value `false` — `else return {r, d};` — the ordinary owning constructor. -/
def make_unique_resource_checked (r invalid d : Nat) : unique_resource :=
  if r = invalid then ⟨r, d, false⟩ else ⟨r, d, true⟩

end WwaUtils

namespace WwaUtils

/-! ### Theorems -/

/-- C1: the claim states that for EVERY guard variant a throwing
initialization of the stored exit function invokes `fn()` exactly once
before the exception propagates.  This evaluation of the three modelled
constructors at a throwing initialization shows the claim fails for
`success_action`: its constructor (which, unlike the other two, has no
function-try-block with `catch (...) { fn(); }`) propagates the exception
with ZERO invocations of `fn`, while `exit_action` and `fail_action` do
invoke `fn` exactly once. -/
theorem c1_success_ctor_lacks_fallback :
    success_action_ctor true 0 = Except.error 0 ∧
    exit_action_ctor true = Except.error 1 ∧
    fail_action_ctor true 0 = Except.error 1 := by
  refine ⟨rfl, rfl, rfl⟩

/-- C2: the claim states that when the assignment inside `reset(r)` throws,
the deleter is invoked on the raw incoming value `r` before the exception
propagates.  Evaluating the modelled `reset(Res&&)` on an owning wrapper
(handle 10, deleter 1) with a new handle 20 whose assignment throws: the
leading `reset()` disposes the old handle 10, the exception propagates
(third component `true`), and the invocation list contains NO call of the
deleter on the incoming value 20 — the source body has no try/catch
fallback, so `r` is leaked. -/
theorem c2_reset_with_no_fallback_on_throw :
    reset_with ⟨10, 1, true⟩ 20 true = (⟨10, 1, false⟩, [⟨1, 10⟩], true) ∧
    Call.mk 1 20 ∉ (reset_with ⟨10, 1, true⟩ 20 true).2.1 := by
  refine ⟨rfl, by decide⟩

/-- C3: `unique_resource(r, d)` initializes the stored handle before the
stored deleter; if handle initialization throws, `d` is invoked exactly
once on the caller's original handle value `r` before the exception
propagates; if the handle is stored but deleter initialization throws, `d`
is invoked exactly once on the (now-stored) handle, whose value is `r`;
and the wrapper owns the resource (`m_run_on_reset = true`) exactly when
both initializations succeed (on the throwing paths no object exists). -/
theorem c3_ctor_rollback (r d : Nat) :
    unique_resource_ctor r d true true = Except.error [⟨d, r⟩] ∧
    unique_resource_ctor r d true false = Except.error [⟨d, r⟩] ∧
    unique_resource_ctor r d false true = Except.error [⟨d, r⟩] ∧
    unique_resource_ctor r d false false = Except.ok ⟨r, d, true⟩ := by
  refine ⟨rfl, rfl, rfl, rfl⟩

/-- C4: the deleter runs at most once per ownership epoch.  For every
state: two consecutive `reset()` calls dispose at most once in total; after
a `reset()` the destructor performs no invocation; after `release()` the
destructor performs no invocation; and because `reset()` clears
`m_run_on_reset` before invoking the deleter, even a deleter that throws
out of `reset()` leaves a state whose destructor performs no further
invocation. -/
theorem c4_at_most_one_disposal (s : unique_resource) :
    ((reset s).2 ++ (reset (reset s).1).2).length ≤ 1 ∧
    dtor (reset s).1 = [] ∧
    dtor (release s) = [] ∧
    (∀ b : Bool, dtor (resetThrowingDeleter s b).1 = []) := by
  by_cases h : s.m_run_on_reset <;>
    simp [reset, resetThrowingDeleter, dtor, release, h]

/-- C5: a `fail_action` constructed at uncaught-exception count `c` fires
its callable at destruction iff the current count strictly exceeds the
snapshot `c`; in particular, destroyed while one more exception is
unwinding (`c + 1`) it invokes the callable exactly once, and destroyed at
the construction-time count (normal completion of the block) it invokes
nothing. -/
theorem c5_fail_action_truth_table (c cur : Int) (g : fail_action)
    (h : fail_action_ctor false c = Except.ok g) :
    (fail_action_dtor g cur = 1 ↔ cur > c) ∧
    fail_action_dtor g (c + 1) = 1 ∧
    fail_action_dtor g c = 0 := by
  have hg : g = ⟨c⟩ := by
    simpa [fail_action_ctor] using h.symm
  subst hg
  unfold fail_action_dtor
  refine ⟨?_, by simp, by simp⟩
  by_cases hc : cur > c <;> simp [hc]

theorem c5_fail_action_truth_table_witness :
    (fail_action_dtor ⟨3⟩ 4 = 1 ↔ (4 : Int) > 3) ∧
    fail_action_dtor ⟨3⟩ (3 + 1) = 1 ∧
    fail_action_dtor ⟨3⟩ 3 = 0 :=
  c5_fail_action_truth_table 3 4 ⟨3⟩ rfl

/-- C6: a `success_action` with snapshot `c` fires at destruction iff the
current uncaught-exception count is `≤ c` — the exact inverse of the
`fail_action` truth table at the same snapshot and current count — and
`release()` sets the snapshot to `INT_MIN`, after which no destruction at
any representable nonnegative uncaught count (the only values
`std::uncaught_exceptions()` takes) invokes the callable. -/
theorem c6_success_action_truth_table (c cur : Int) (h : 0 ≤ cur) :
    (success_action_dtor ⟨c⟩ cur = 1 ↔ cur ≤ c) ∧
    (success_action_dtor ⟨c⟩ cur = 1 ↔ fail_action_dtor ⟨c⟩ cur = 0) ∧
    success_action_release ⟨c⟩ = ⟨INT_MIN⟩ ∧
    success_action_dtor (success_action_release ⟨c⟩) cur = 0 := by
  unfold success_action_dtor fail_action_dtor success_action_release
  have hmin : ¬cur ≤ INT_MIN := by
    unfold INT_MIN
    omega
  by_cases hc : cur ≤ c
  · simp [hc, not_lt.mpr hc, hmin]
  · simp [hc, lt_of_not_le hc, hmin]

theorem c6_success_action_truth_table_witness :
    (success_action_dtor ⟨5⟩ 0 = 1 ↔ (0 : Int) ≤ 5) ∧
    (success_action_dtor ⟨5⟩ 0 = 1 ↔ fail_action_dtor ⟨5⟩ 0 = 0) ∧
    success_action_release ⟨5⟩ = ⟨INT_MIN⟩ ∧
    success_action_dtor (success_action_release ⟨5⟩) 0 = 0 :=
  c6_success_action_truth_table 5 0 (by decide)

/-- C7: for distinct wrappers, `a = std::move(b)` first disposes `a`'s
originally owned resource exactly once via `a`'s original deleter (the
leading `reset()`, whose invocation list is exactly that one call when `a`
owned and empty otherwise), then takes over `b`'s handle and deleter;
afterwards `a` owns iff `b` owned before, and `b` ends non-owning. -/
theorem c7_move_assign (a b : unique_resource) :
    (move_assign a b).2.2 =
      (if a.m_run_on_reset then [⟨a.m_deleter, a.m_resource⟩] else []) ∧
    (move_assign a b).1.m_resource = b.m_resource ∧
    (move_assign a b).1.m_deleter = b.m_deleter ∧
    (move_assign a b).1.m_run_on_reset = b.m_run_on_reset ∧
    (move_assign a b).2.1.m_run_on_reset = false := by
  unfold move_assign reset
  by_cases h : a.m_run_on_reset <;> simp [h]

/-- C8: `make_unique_resource_checked(r, invalid, d)` stores both `r` and
`d`; the wrapper owns the resource iff `r` does not compare equal to
`invalid`; and its destruction invokes the deleter exactly once with handle
`r` when `r ≠ invalid`, and never when `r = invalid`. -/
theorem c8_make_checked (r invalid d : Nat) :
    (make_unique_resource_checked r invalid d).m_resource = r ∧
    (make_unique_resource_checked r invalid d).m_deleter = d ∧
    ((make_unique_resource_checked r invalid d).m_run_on_reset = true ↔
      r ≠ invalid) ∧
    dtor (make_unique_resource_checked r invalid d) =
      (if r = invalid then [] else [⟨d, r⟩]) := by
  unfold make_unique_resource_checked dtor reset
  by_cases h : r = invalid <;> simp [h]

/-- C9: the move constructors of `fail_action` and `exit_action` (and
`success_action`) copy the trigger state verbatim from the source — the new
`fail_action` carries the source's snapshot, not a fresh one (the modelled
move takes no current-count input, mirroring the member-init from
`other.m_uncaught_exceptions_count`) — and disarm the source via
`release()`: the moved-from `fail_action`'s source snapshot becomes
`INT_MAX` so its destructor never fires at any representable current count,
the moved-from `success_action`'s source snapshot becomes `INT_MIN` so its
destructor never fires at any current count in the nonnegative range of
`std::uncaught_exceptions()`, the moved-from `exit_action`'s destructor
never invokes the callable, and destroying the new `exit_action` obtained
from an armed source invokes the callable exactly once. -/
theorem c9_move_preserves_baseline (g : fail_action) (e : exit_action)
    (s : success_action) (cur : Int) (hcur : cur ≤ INT_MAX)
    (hcur0 : 0 ≤ cur) (he : e.m_is_armed = true) :
    (fail_action_move g).1.m_uncaught_exceptions_count =
      g.m_uncaught_exceptions_count ∧
    (fail_action_move g).2 = ⟨INT_MAX⟩ ∧
    fail_action_dtor (fail_action_move g).2 cur = 0 ∧
    (success_action_move s).1.m_uncaught_exceptions_count =
      s.m_uncaught_exceptions_count ∧
    (success_action_move s).2 = ⟨INT_MIN⟩ ∧
    success_action_dtor (success_action_move s).2 cur = 0 ∧
    (exit_action_move e).1.m_is_armed = e.m_is_armed ∧
    exit_action_dtor (exit_action_move e).2 = 0 ∧
    exit_action_dtor (exit_action_move e).1 = 1 := by
  have hmin : ¬cur ≤ INT_MIN := by
    unfold INT_MIN
    omega
  unfold fail_action_move exit_action_move success_action_move
    fail_action_release exit_action_release success_action_release
    fail_action_dtor exit_action_dtor success_action_dtor
  simp [he, not_lt.mpr hcur, hmin]

theorem c9_move_preserves_baseline_witness :
    (fail_action_move ⟨3⟩).1.m_uncaught_exceptions_count =
      (fail_action.mk 3).m_uncaught_exceptions_count ∧
    (fail_action_move ⟨3⟩).2 = ⟨INT_MAX⟩ ∧
    fail_action_dtor (fail_action_move ⟨3⟩).2 4 = 0 ∧
    (success_action_move ⟨2⟩).1.m_uncaught_exceptions_count =
      (success_action.mk 2).m_uncaught_exceptions_count ∧
    (success_action_move ⟨2⟩).2 = ⟨INT_MIN⟩ ∧
    success_action_dtor (success_action_move ⟨2⟩).2 4 = 0 ∧
    (exit_action_move ⟨true⟩).1.m_is_armed =
      (exit_action.mk true).m_is_armed ∧
    exit_action_dtor (exit_action_move ⟨true⟩).2 = 0 ∧
    exit_action_dtor (exit_action_move ⟨true⟩).1 = 1 :=
  c9_move_preserves_baseline ⟨3⟩ ⟨true⟩ ⟨2⟩ 4 (by decide) (by decide) rfl

/-- C10: move-assigning an owning `unique_resource` to itself (the source
has no self-assignment check) invokes the deleter on the currently owned
handle exactly once — via the leading `reset()` — and leaves the wrapper
non-owning, so its later destruction invokes nothing. -/
theorem c10_self_move_assign (s : unique_resource)
    (h : s.m_run_on_reset = true) :
    move_assign_self s =
      ({ s with m_run_on_reset := false }, [⟨s.m_deleter, s.m_resource⟩]) ∧
    dtor (move_assign_self s).1 = [] := by
  simp [move_assign_self, dtor, reset, h]

theorem c10_self_move_assign_witness :
    move_assign_self ⟨7, 2, true⟩ = (⟨7, 2, false⟩, [⟨2, 7⟩]) ∧
    dtor (move_assign_self ⟨7, 2, true⟩).1 = [] :=
  c10_self_move_assign ⟨7, 2, true⟩ rfl

end WwaUtils
